import Mathlib

/-!
Shallow embedding of the Beckhoff BIOS API driver (src/api.c), covering the
request gateway (bbapi_ioctl / bbapi_ioctl_mutexed), the internal call path
(bbapi_rw / bbapi_read / bbapi_write), the signature scan (bbapi_find_bios),
the shadow copy (bbapi_copy_bios), and the capability probe (bbapi_supports).

Machine integers are modelled as Nat with explicit reduction mod 2 ^ 32 where
a 32-bit unsigned computation can wrap; signed readings of 32-bit patterns go
through toInt32.  Byte buffers are modelled as functions Nat → Nat (kernel
scratch buffers, caller payloads) or as List Nat (the mapped search window).
The firmware entry point is an abstract parameter of every gateway function.
-/

namespace BBAPI

/-- Linux errno constant ENOMEM = 12 (asm-generic/errno-base.h). -/
def ENOMEM : Nat := 12

/-- Linux errno constant EACCES = 13 (asm-generic/errno-base.h). -/
def EACCES : Nat := 13

/-- Linux errno constant EFAULT = 14 (asm-generic/errno-base.h). -/
def EFAULT : Nat := 14

/-- Linux errno constant EINVAL = 22 (asm-generic/errno-base.h). -/
def EINVAL : Nat := 22

/-- The ioctl command number of the driver, from src/unittest.cpp line 56:
BBAPI_CMD 0x5000. -/
def BBAPI_CMD : Nat := 0x5000

/-- Modelled from the spec: the legacy short-form command number
(BBAPI_CMD_LEGACY of the absent header api.h); the spec only requires it to
be a command code distinct from BBAPI_CMD whose descriptor omits the
bytes-returned and reserved fields, both treated as absent. -/
def BBAPI_CMD_LEGACY : Nat := 0x5001

/-- Modelled from the spec: the capacity of each scratch buffer
(sizeof g_bbapi.in and sizeof g_bbapi.out; the struct lives in the absent
header api.h).  The spec fixes the scratch capacity at 4096 bytes. -/
def BBAPI_BUFFER_SIZE : Nat := 4096

/-- Modelled from the spec: the fixed build-time error offset constant
(BIOSAPIERR_OFFSET of the absent header TcBaDevDef.h).  The spec requires
firmware-origin failures, raw status combined with this constant, to occupy
a numeric range disjoint from the low errno range, so the constant is a
single high bit. -/
def BIOSAPIERR_OFFSET : Nat := 0x20000000

/-- Modelled from the spec: the service-unavailable status returned by
bbapi_rw while no entry point is published (constant of the absent header
TcBaDevDef.h).  Raw firmware statuses are small (the spec's example failure
status is 0x02) and the named constants live in the error space, raw code
combined with BIOSAPIERR_OFFSET. -/
def BIOSAPI_SRVNOTSUPP : Nat := BIOSAPIERR_OFFSET ||| 0x01

/-- Modelled from the spec: the invalid-size status constant of the absent
header TcBaDevDef.h, raw code 0x02 in the error space. -/
def BIOSAPI_INVALIDSIZE : Nat := BIOSAPIERR_OFFSET ||| 0x02

/-- Modelled from the spec: the invalid-parameter status constant of the
absent header TcBaDevDef.h, raw code 0x03 in the error space. -/
def BIOSAPI_INVALIDPARM : Nat := BIOSAPIERR_OFFSET ||| 0x03

/-- The 8-byte ASCII signature compiled in on x86_64 (src/api.c line 78):
the string BBAPIX64 read as a 64-bit little-endian value. -/
def BBIOSAPI_SIGNATURE : Nat := 0x3436584950414242

/-- The 8-byte ASCII signature of the i386 build (src/api.c line 50):
the string BBIOSAPI read as a 64-bit little-endian value.  Exactly one of
the two constants is compiled in; the scan below uses the x86_64 one. -/
def BBIOSAPI_SIGNATURE_I386 : Nat := 0x495041534F494242

/-- Modelled from the spec: the compile-time maximum of the configurable
search-window size (BBIOSAPI_SIGNATURE_SEARCH_AREA of the absent header);
the spec only requires a fixed maximum bounding the configured window. -/
def BBIOSAPI_SIGNATURE_SEARCH_AREA : Nat := 0x100000

/-- Two's-complement reading of a 32-bit pattern. -/
def toInt32 (n : Nat) : Int :=
  if n % 2 ^ 32 < 2 ^ 31 then ((n % 2 ^ 32 : Nat) : Int)
  else ((n % 2 ^ 32 : Nat) : Int) - 2 ^ 32

/-- 32-bit unsigned negation: the bit pattern of the C expression -x at
type unsigned int. -/
def u32neg (x : Nat) : Nat := (2 ^ 32 - x % 2 ^ 32) % 2 ^ 32

/-- The request descriptor struct bbapi_struct (declared in the absent
header; field names and uses as in src/api.c and src/unittest.cpp).
Caller buffers are byte functions; pBytesReturned and pMode model the
non-nullness of the corresponding pointers.  The pOutBuffer pointer value
itself plays no role in the modelled control flow. -/
structure bbapi_struct where
  nIndexGroup : Nat
  nIndexOffset : Nat
  pInBuffer : Nat → Nat
  nInBufferSize : Nat
  nOutBufferSize : Nat
  pBytesReturned : Bool
  pMode : Bool

/-- The firmware entry point, abstractly: (group, offset, input bytes,
input size, output size) to (raw 32-bit status, bytes-written count, bytes
the firmware left in the output buffer). -/
def FwEntry : Type :=
  Nat → Nat → (Nat → Nat) → Nat → Nat → Nat × Nat × (Nat → Nat)

/-- The global driver state g_bbapi: whether an entry point is published,
and the contents of the two scratch buffers. -/
structure bbapi_object where
  entry : Bool
  inBuf : Nat → Nat
  outBuf : Nat → Nat

/-- Caller-visible outcome of one external (ioctl) request: the returned
value, the driver state afterwards, the number of firmware invocations,
the bytes copied back to the caller's output buffer (none when no copy-out
happened), and the value stored through pBytesReturned (none when nothing
was stored). -/
structure IoctlResult where
  result : Int
  state : bbapi_object
  fwCalls : Nat
  userOut : Option (List Nat)
  userBytesReturned : Option Nat

/-- Outcome of one internal call (bbapi_rw): the unsigned 32-bit return
value, the number of firmware invocations, the count stored through the
bytes_written pointer (none when the firmware was never invoked), and the
bytes the firmware left in the caller's output buffer (none likewise). -/
structure RwResult where
  result : Nat
  fwCalls : Nat
  bytesWritten : Option Nat
  callerOut : Option (Nat → Nat)

/-- bbapi_call (src/api.c): hand the marshalled request to the firmware
entry point.  The foreign-ABI marshaling itself has no observable effect
beyond delivering the seven parameters, so the model applies the abstract
entry function directly. -/
def bbapi_call (fw : FwEntry) (inB : Nat → Nat) (cmd : bbapi_struct) :
    Nat × Nat × (Nat → Nat) :=
  fw cmd.nIndexGroup cmd.nIndexOffset inB cmd.nInBufferSize cmd.nOutBufferSize

/-- The input scratch buffer after copy_from_user staged the caller
payload: the first nInBufferSize bytes come from the caller, the rest is
the previous scratch content. -/
def staged_in (g : bbapi_object) (cmd : bbapi_struct) : Nat → Nat :=
  fun i => if i < cmd.nInBufferSize then cmd.pInBuffer i else g.inBuf i

/-- bbapi_ioctl_mutexed (src/api.c lines 254-291): size validation against
the scratch capacities, staging of the caller input into the input scratch
buffer, the firmware call, error translation, and copy-out.  A failing
copy_from_user / copy_to_user is not modelled (user memory is a total
function). -/
def bbapi_ioctl_mutexed (fw : FwEntry) (bbapi : bbapi_object)
    (cmd : bbapi_struct) : IoctlResult :=
  if BBAPI_BUFFER_SIZE < cmd.nInBufferSize then
    ⟨-(EINVAL : Int), bbapi, 0, none, none⟩
  else if BBAPI_BUFFER_SIZE < cmd.nOutBufferSize then
    ⟨-(EINVAL : Int), bbapi, 0, none, none⟩
  else
    let st1 : bbapi_object := { bbapi with inBuf := staged_in bbapi cmd }
    let r := bbapi_call fw st1.inBuf cmd
    let st2 : bbapi_object := { st1 with outBuf := r.2.2 }
    if r.1 ≠ 0 then
      ⟨toInt32 (u32neg (r.1 ||| BIOSAPIERR_OFFSET)), st2, 1, none, none⟩
    else
      ⟨0, st2, 1, some ((List.range r.2.1).map st2.outBuf),
        if cmd.pBytesReturned then some r.2.1 else none⟩

/-- The tail of bbapi_ioctl after the descriptor has been fetched from user
space (src/api.c lines 320-335): the reserved-field check, the access
threshold check, then the mutex-guarded body. -/
def bbapi_ioctl_checked (fw : FwEntry) (g : bbapi_object)
    (bbstruct : bbapi_struct) : IoctlResult :=
  if bbstruct.pMode then ⟨-(EINVAL : Int), g, 0, none, none⟩
  else if 0xB0 ≤ bbstruct.nIndexOffset then ⟨-(EACCES : Int), g, 0, none, none⟩
  else bbapi_ioctl_mutexed fw g bbstruct

/-- bbapi_ioctl (src/api.c lines 293-336): the external request gate.  The
copy of the descriptor itself from user space is modelled as already given
(a failed descriptor copy returns -EINVAL without further effect); the
legacy command truncates the descriptor, forcing the bytes-returned and
reserved fields to absent. -/
def bbapi_ioctl (fw : FwEntry) (g : bbapi_object) (cmd : Nat)
    (arg : bbapi_struct) : IoctlResult :=
  if g.entry = false then ⟨-(EINVAL : Int), g, 0, none, none⟩
  else if cmd = BBAPI_CMD_LEGACY then
    bbapi_ioctl_checked fw g
      { arg with pBytesReturned := false, pMode := false }
  else if cmd ≠ BBAPI_CMD then ⟨-(EINVAL : Int), g, 0, none, none⟩
  else bbapi_ioctl_checked fw g arg

/-- bbapi_rw (src/api.c lines 106-132): the internal (trusted) call path.
It touches no scratch buffer: the caller's own buffers are handed to the
firmware directly.  The return type is unsigned int, so the error
translation -(result | BIOSAPIERR_OFFSET) is the 32-bit pattern u32neg. -/
def bbapi_rw (fw : FwEntry) (g : bbapi_object) (group offset : Nat)
    (inB : Nat → Nat) (size_in size_out : Nat) : RwResult :=
  if g.entry = false then ⟨BIOSAPI_SRVNOTSUPP, 0, none, none⟩
  else
    let cmd : bbapi_struct :=
      ⟨group, offset, fun _ => 0, size_in, size_out, false, false⟩
    let r := bbapi_call fw inB cmd
    if r.1 ≠ 0 then
      ⟨u32neg (r.1 ||| BIOSAPIERR_OFFSET), 1, some r.2.1, some r.2.2⟩
    else ⟨r.1, 1, some r.2.1, some r.2.2⟩

/-- bbapi_read (src/api.c lines 134-139): internal read, no input payload. -/
def bbapi_read (fw : FwEntry) (g : bbapi_object) (group offset : Nat)
    (size : Nat) : RwResult :=
  bbapi_rw fw g group offset (fun _ => 0) 0 size

/-- bbapi_write (src/api.c lines 143-148): internal write, no output. -/
def bbapi_write (fw : FwEntry) (g : bbapi_object) (group offset : Nat)
    (inB : Nat → Nat) (size : Nat) : RwResult :=
  bbapi_rw fw g group offset inB size 0

/-- bbapi_supports (src/api.c lines 384-394): the capability probe, a
zero-length internal read whose unsigned return value is negated (at 32
bits) and compared against the invalid-size and invalid-parameter
constants. -/
def bbapi_supports (fw : FwEntry) (g : bbapi_object)
    (group offset : Nat) : Bool :=
  let v := u32neg (bbapi_read fw g group offset 0).result
  (v == BIOSAPI_INVALIDSIZE) || (v == BIOSAPI_INVALIDPARM)

/-- ioread32 of the mapped window at byte index i: four bytes combined
little-endian.  Reads beyond the window yield 0. -/
def le32 (w : List Nat) (i : Nat) : Nat :=
  w.getD i 0 + 2 ^ 8 * w.getD (i + 1) 0 + 2 ^ 16 * w.getD (i + 2) 0 +
    2 ^ 24 * w.getD (i + 3) 0

/-- The 64-bit candidate value of the scan (src/api.c lines 234-236): two
32-bit little-endian reads, high shifted left 32 and or-ed with low. -/
def lword (w : List Nat) (i : Nat) : Nat :=
  (le32 w (i + 4) <<< 32) ||| le32 w i

/-- Candidate positions of one byte-phase: start + off stepping 16 bytes
while pos ≤ end - STEP_SIZE (the inner loop of bbapi_find_bios), in
increasing order. -/
def phase_positions (n off : Nat) : List Nat :=
  (List.range n).filter (fun p => decide (p % 16 = off ∧ p + 16 ≤ n))

/-- The complete search order of bbapi_find_bios: all positions of phase 0
first, then phase 1, through phase 15 (the outer loop over off). -/
def scan_order (n : Nat) : List Nat :=
  (List.range 16).flatMap (fun off => phase_positions n off)

/-- The signature scan of bbapi_find_bios (src/api.c lines 232-245): the
first position, in phase-major order, whose 64-bit little-endian value
equals the compiled-in signature. -/
def bbapi_scan (w : List Nat) : Option Nat :=
  (scan_order w.length).find? (fun p => lword w p == BBIOSAPI_SIGNATURE)

/-- The shadow image built by bbapi_copy_bios: the copied bytes, the
allocation size, and the entry offset within the buffer (the published
entry pointer is buffer base + entryOffset). -/
structure BiosImage where
  memory : List Nat
  size : Nat
  entryOffset : Nat

/-- bbapi_copy_bios (src/api.c lines 181-201): read the 32-bit
little-endian length field 8 bytes past the signature, allocate
field + 4096 bytes, copy exactly that many bytes from the window starting
at the signature, and set the entry to buffer base + field.  Allocation
and set_memory_x are assumed to succeed (their failures return -ENOMEM
resp. -EFAULT before any state is published). -/
def bbapi_copy_bios (w : List Nat) (pos : Nat) : BiosImage :=
  let offset := le32 w (pos + 8)
  let size := offset + 4096
  { memory := (List.range size).map (fun i => w.getD (pos + i) 0)
    size := size
    entryOffset := offset }

/-- bbapi_find_bios (src/api.c lines 211-249): reject a window larger than
the compile-time maximum with -EFAULT, otherwise scan; on a match, shadow
the image at the match position; with no match anywhere the initial
result -EFAULT survives. -/
def bbapi_find_bios (w : List Nat) : Int × Option BiosImage :=
  if BBIOSAPI_SIGNATURE_SEARCH_AREA < w.length then (-(EFAULT : Int), none)
  else
    match bbapi_scan w with
    | some pos => (0, some (bbapi_copy_bios w pos))
    | none => (-(EFAULT : Int), none)

/-- A firmware stub that always succeeds writing nothing. -/
def fw0 : FwEntry := fun _ _ _ _ _ => (0, 0, fun _ => 0)

/-- A firmware stub that always fails with raw status 0x02. -/
def fwErr2 : FwEntry := fun _ _ _ _ _ => (2, 0, fun _ => 0)

/-- A firmware stub that succeeds and reports 9999 bytes written, each
output byte reading 7. -/
def fwBig : FwEntry := fun _ _ _ _ _ => (0, 9999, fun _ => 7)

/-- Driver state with a published entry point and zeroed scratch. -/
def gReady : bbapi_object := ⟨true, fun _ => 0, fun _ => 0⟩

/-- Driver state before discovery: no entry point published. -/
def gUninit : bbapi_object := ⟨false, fun _ => 0, fun _ => 0⟩

/-- A 12-byte window whose length field at byte 8 reads 0x2000. -/
def wC6 : List Nat := [0, 0, 0, 0, 0, 0, 0, 0, 0x00, 0x20, 0, 0]

/-- A 64-byte window carrying the x86_64 signature at byte offset 37 and
zeros elsewhere. -/
def w37 : List Nat :=
  List.replicate 37 0 ++ [0x42, 0x42, 0x41, 0x50, 0x49, 0x58, 0x36, 0x34] ++
    List.replicate 19 0

/-- A 64-byte window of zeros: no signature anywhere. -/
def wNone : List Nat := List.replicate 64 0

/-- A request with offset 0xB5 (at or above the access threshold) and a
null reserved field. -/
def argAccess : bbapi_struct := ⟨0, 0xB5, fun _ => 0, 0, 0, false, false⟩

/-- A request with offset 0xB5 and a non-null reserved field. -/
def argReserved : bbapi_struct := ⟨0, 0xB5, fun _ => 0, 0, 0, false, true⟩

/-- A request with input size 5000, above the 4096-byte scratch capacity,
at an offset below the access threshold. -/
def argOversize : bbapi_struct := ⟨0, 0, fun _ => 0, 5000, 0, false, false⟩

/-- A request with input size 5000 and offset 0xB5: oversized and at or
above the access threshold at the same time. -/
def argOversizeAcc : bbapi_struct := ⟨0, 0xB5, fun _ => 0, 5000, 0, false, false⟩

/-- A minimal well-formed request. -/
def argOk : bbapi_struct := ⟨0, 0, fun _ => 0, 0, 0, false, false⟩

/-- A well-formed request with declared output size 16 and a non-null
bytes-returned pointer. -/
def argOkBR : bbapi_struct := ⟨0, 0, fun _ => 0, 0, 16, true, false⟩

/-- Reading the 32-bit pattern of unsigned negation back as signed gives
mathematical negation whenever the negated value fits in 31 bits. -/
theorem toInt32_u32neg (x : Nat) (h1 : 0 < x) (h2 : x ≤ 2 ^ 31) :
    toInt32 (u32neg x) = -(x : Int) := by
  unfold toInt32 u32neg
  have hx : x % 2 ^ 32 = x := Nat.mod_eq_of_lt (by omega)
  rw [hx]
  have h3 : (2 ^ 32 - x) % 2 ^ 32 = 2 ^ 32 - x := Nat.mod_eq_of_lt (by omega)
  rw [h3]
  split
  · omega
  · omega

/-- Unsigned 32-bit negation is an involution below 2 ^ 32. -/
theorem u32neg_u32neg (x : Nat) (h : x < 2 ^ 32) : u32neg (u32neg x) = x := by
  unfold u32neg
  omega

/-- The signed reading of the unsigned negation of a nonzero 32-bit value
is never zero. -/
theorem toInt32_u32neg_ne_zero (x : Nat) (h0 : x ≠ 0) (h32 : x < 2 ^ 32) :
    toInt32 (u32neg x) ≠ 0 := by
  unfold toInt32 u32neg
  split <;> omega

/-- Combining any status with the error offset constant gives a nonzero
value: bit 29 of the offset constant survives the or. -/
theorem or_offset_ne_zero (s : Nat) : s ||| BIOSAPIERR_OFFSET ≠ 0 := by
  intro h
  have h29 : Nat.testBit BIOSAPIERR_OFFSET 29 = true := by decide
  have ht : (s ||| BIOSAPIERR_OFFSET).testBit 29 = true := by
    rw [Nat.testBit_or, h29, Bool.or_true]
  rw [h] at ht
  simp at ht

/-- With a published entry point and the real command number, the external
gate reduces to its post-copy validation tail. -/
theorem ioctl_run (fw : FwEntry) (g : bbapi_object) (arg : bbapi_struct)
    (hinit : g.entry = true) :
    bbapi_ioctl fw g BBAPI_CMD arg = bbapi_ioctl_checked fw g arg := by
  unfold bbapi_ioctl
  rw [if_neg (by simp [hinit]), if_neg (by decide), if_neg (by simp)]

/-- A non-null reserved field is rejected with -EINVAL before any other
per-request step: state untouched, firmware not invoked. -/
theorem ioctl_reject_pmode (fw : FwEntry) (g : bbapi_object)
    (arg : bbapi_struct) (hinit : g.entry = true) (hmode : arg.pMode = true) :
    bbapi_ioctl fw g BBAPI_CMD arg = ⟨-(EINVAL : Int), g, 0, none, none⟩ := by
  rw [ioctl_run fw g arg hinit]
  unfold bbapi_ioctl_checked
  rw [if_pos hmode]

/-- With the reserved field null, an offset at or above 0xB0 is rejected
with -EACCES: state untouched, firmware not invoked. -/
theorem ioctl_reject_access (fw : FwEntry) (g : bbapi_object)
    (arg : bbapi_struct) (hinit : g.entry = true) (hmode : arg.pMode = false)
    (hoff : 0xB0 ≤ arg.nIndexOffset) :
    bbapi_ioctl fw g BBAPI_CMD arg = ⟨-(EACCES : Int), g, 0, none, none⟩ := by
  rw [ioctl_run fw g arg hinit]
  unfold bbapi_ioctl_checked
  rw [if_neg (by simp [hmode]), if_pos hoff]

/-- A request that passes the reserved-field and access checks reaches the
mutex-guarded body unchanged. -/
theorem ioctl_pass (fw : FwEntry) (g : bbapi_object) (arg : bbapi_struct)
    (hinit : g.entry = true) (hmode : arg.pMode = false)
    (hoff : arg.nIndexOffset < 0xB0) :
    bbapi_ioctl fw g BBAPI_CMD arg = bbapi_ioctl_mutexed fw g arg := by
  rw [ioctl_run fw g arg hinit]
  unfold bbapi_ioctl_checked
  rw [if_neg (by simp [hmode]), if_neg (by omega)]

/-- The mutex-guarded body on the firmware-error path: sizes pass, input is
staged, the firmware runs once, the status is translated, nothing is copied
back. -/
theorem mutexed_error (fw : FwEntry) (g : bbapi_object) (arg : bbapi_struct)
    (s wr : Nat) (out : Nat → Nat)
    (hin : arg.nInBufferSize ≤ BBAPI_BUFFER_SIZE)
    (hout : arg.nOutBufferSize ≤ BBAPI_BUFFER_SIZE)
    (hfw : ∀ gr off i isz osz, fw gr off i isz osz = (s, wr, out))
    (hs : s ≠ 0) :
    bbapi_ioctl_mutexed fw g arg =
      ⟨toInt32 (u32neg (s ||| BIOSAPIERR_OFFSET)),
       ⟨g.entry, staged_in g arg, out⟩, 1, none, none⟩ := by
  simp only [bbapi_ioctl_mutexed, bbapi_call, hfw]
  simp [Nat.not_lt.mpr hin, Nat.not_lt.mpr hout, hs]

/-- The mutex-guarded body on the success path: sizes pass, input is
staged, the firmware runs once, exactly the firmware-reported number of
bytes is copied back, and the count is stored when requested. -/
theorem mutexed_success (fw : FwEntry) (g : bbapi_object) (arg : bbapi_struct)
    (wr : Nat) (out : Nat → Nat)
    (hin : arg.nInBufferSize ≤ BBAPI_BUFFER_SIZE)
    (hout : arg.nOutBufferSize ≤ BBAPI_BUFFER_SIZE)
    (hfw : ∀ gr off i isz osz, fw gr off i isz osz = (0, wr, out)) :
    bbapi_ioctl_mutexed fw g arg =
      ⟨0, ⟨g.entry, staged_in g arg, out⟩, 1,
       some ((List.range wr).map out),
       if arg.pBytesReturned then some wr else none⟩ := by
  simp only [bbapi_ioctl_mutexed, bbapi_call, hfw]
  simp [Nat.not_lt.mpr hin, Nat.not_lt.mpr hout]

/-- The internal path on the firmware-error path: the firmware runs once
and the unsigned translated status is returned. -/
theorem rw_error (fw : FwEntry) (g : bbapi_object) (group offset : Nat)
    (inB : Nat → Nat) (si so : Nat) (s wr : Nat) (out : Nat → Nat)
    (hinit : g.entry = true)
    (hcall : fw group offset inB si so = (s, wr, out)) (hs : s ≠ 0) :
    bbapi_rw fw g group offset inB si so =
      ⟨u32neg (s ||| BIOSAPIERR_OFFSET), 1, some wr, some out⟩ := by
  simp only [bbapi_rw, bbapi_call, hcall]
  simp [hinit, hs]

/-- The unsigned value returned by the internal path, as a function of the
raw firmware status. -/
theorem rw_result_status (fw : FwEntry) (g : bbapi_object)
    (group offset : Nat) (inB : Nat → Nat) (si so : Nat) (s wr : Nat)
    (out : Nat → Nat) (hinit : g.entry = true)
    (hcall : fw group offset inB si so = (s, wr, out)) :
    (bbapi_rw fw g group offset inB si so).result =
      if s = 0 then 0 else u32neg (s ||| BIOSAPIERR_OFFSET) := by
  simp only [bbapi_rw, bbapi_call, hcall]
  by_cases h : s = 0
  · subst h
    simp [hinit]
  · simp [hinit, h]

/-- find? returns the unique element satisfying the predicate when there
is exactly one in the list. -/
theorem find?_eq_some_of_unique (l : List Nat) (p : Nat → Bool) (a : Nat)
    (ha : a ∈ l) (hpa : p a = true)
    (huniq : ∀ b ∈ l, p b = true → b = a) :
    l.find? p = some a := by
  induction l with
  | nil => exact absurd ha (List.not_mem_nil a)
  | cons x xs ih =>
    rcases List.mem_cons.mp ha with h | h
    · subst h
      exact List.find?_cons_of_pos _ hpa
    · by_cases hx : p x = true
      · have hxa : x = a := huniq x (List.mem_cons_self x xs) hx
        subst hxa
        exact List.find?_cons_of_pos _ hx
      · rw [List.find?_cons_of_neg _ (by simpa using hx)]
        exact ih h (fun b hb hpb => huniq b (List.mem_cons_of_mem x hb) hpb)

/-- Membership in the scan order is exactly the inner-loop bound of the
search: the position leaves 16 readable bytes in the window. -/
theorem mem_scan_order (n p : Nat) : p ∈ scan_order n ↔ p + 16 ≤ n := by
  unfold scan_order phase_positions
  simp only [List.mem_flatMap, List.mem_filter, List.mem_range,
    decide_eq_true_eq]
  constructor
  · rintro ⟨off, _, _, _, hle⟩
    exact hle
  · intro h
    exact ⟨p % 16, Nat.mod_lt _ (by omega), by omega, rfl, h⟩

/-- Reading back an element of a tabulated list. -/
theorem getD_range_map (n i : Nat) (f : Nat → Nat) (h : i < n) :
    ((List.range n).map f).getD i 0 = f i := by
  rw [List.getD_eq_getElem?_getD]
  simp [List.getElem?_map, List.getElem?_range h]

/-- C1: an external request from an untrusted caller whose offset is at or
above the 0xB0 threshold is answered with -EACCES, with the scratch
buffers untouched (the driver state is returned unchanged), zero firmware
invocations, and nothing written back to the caller — for every group,
payload, and declared buffer sizes.  Hypotheses: the bridge is initialized
and the reserved field is null (a non-null reserved field is outside the
claim's quantification and is rejected earlier with -EINVAL). -/
theorem C1_access_threshold (fw : FwEntry) (g : bbapi_object)
    (arg : bbapi_struct) (hinit : g.entry = true) (hmode : arg.pMode = false)
    (hoff : 0xB0 ≤ arg.nIndexOffset) :
    bbapi_ioctl fw g BBAPI_CMD arg = ⟨-(EACCES : Int), g, 0, none, none⟩ :=
  ioctl_reject_access fw g arg hinit hmode hoff

/-- C1 witness: the concrete request with offset 0xB5. -/
theorem C1_witness :
    gReady.entry = true ∧ (0xB0 : Nat) ≤ argAccess.nIndexOffset ∧
    bbapi_ioctl fw0 gReady BBAPI_CMD argAccess =
      ⟨-(EACCES : Int), gReady, 0, none, none⟩ :=
  ⟨rfl, by decide, C1_access_threshold fw0 gReady argAccess rfl rfl (by decide)⟩

/-- C2 counterexample: a request with a non-null reserved field and offset
0xB5 (at or above the threshold) is rejected with -EINVAL by the
reserved-field check, so a per-request validation other than the access
check runs — and rejects — before the access check has been performed;
the request is not answered with -EACCES. -/
theorem C2_counterexample :
    bbapi_ioctl fw0 gReady BBAPI_CMD argReserved =
      ⟨-(EINVAL : Int), gReady, 0, none, none⟩ ∧
    -(EINVAL : Int) ≠ -(EACCES : Int) :=
  ⟨rfl, by decide⟩

/-- C2 amended: for untrusted requests the access-threshold check runs
after the reserved-field check but before the size checks and any data
staging: a non-null reserved field is rejected with -EINVAL first; with
the reserved field null, an offset at or above 0xB0 is rejected with
-EACCES with the state untouched and zero firmware invocations,
independent of the declared sizes. -/
theorem C2_validation_order (fw : FwEntry) (g : bbapi_object)
    (arg : bbapi_struct) (hinit : g.entry = true) :
    (arg.pMode = true →
      bbapi_ioctl fw g BBAPI_CMD arg = ⟨-(EINVAL : Int), g, 0, none, none⟩) ∧
    (arg.pMode = false → 0xB0 ≤ arg.nIndexOffset →
      bbapi_ioctl fw g BBAPI_CMD arg = ⟨-(EACCES : Int), g, 0, none, none⟩) :=
  ⟨fun h => ioctl_reject_pmode fw g arg hinit h,
   fun h1 h2 => ioctl_reject_access fw g arg hinit h1 h2⟩

/-- C2 witness: both branches of the amended ordering at concrete
requests with offset 0xB5. -/
theorem C2_witness :
    gReady.entry = true ∧
    bbapi_ioctl fw0 gReady BBAPI_CMD argReserved =
      ⟨-(EINVAL : Int), gReady, 0, none, none⟩ ∧
    bbapi_ioctl fw0 gReady BBAPI_CMD argAccess =
      ⟨-(EACCES : Int), gReady, 0, none, none⟩ :=
  ⟨rfl, (C2_validation_order fw0 gReady argReserved rfl).1 rfl,
   (C2_validation_order fw0 gReady argAccess rfl).2 rfl (by decide)⟩

/-- C3 counterexample: with no entry point published, the external ioctl
path returns -EINVAL — the gateway's generic argument error — and not the
service-unavailable status BIOSAPI_SRVNOTSUPP that the internal path
returns, under either sign convention. -/
theorem C3_counterexample :
    (bbapi_ioctl fw0 gUninit BBAPI_CMD argOk).result = -(EINVAL : Int) ∧
    (bbapi_rw fw0 gUninit 0 0 (fun _ => 0) 0 0).result = BIOSAPI_SRVNOTSUPP ∧
    -(EINVAL : Int) ≠ -((BIOSAPI_SRVNOTSUPP : Nat) : Int) ∧
    (EINVAL : Nat) ≠ BIOSAPI_SRVNOTSUPP :=
  ⟨rfl, rfl, by decide, by decide⟩

/-- C3 amended: while the bridge is uninitialized every call fails fast
without invoking the firmware entry point; the internal paths (bbapi_rw,
bbapi_read, bbapi_write) return the service-unavailable status
BIOSAPI_SRVNOTSUPP, while the external ioctl path returns the argument
error -EINVAL — in all cases with zero firmware invocations, no state
change, and nothing written back. -/
theorem C3_uninitialized_fail_fast (fw : FwEntry) (g : bbapi_object)
    (cmd : Nat) (arg : bbapi_struct) (group offset : Nat) (inB : Nat → Nat)
    (si so : Nat) (h : g.entry = false) :
    bbapi_ioctl fw g cmd arg = ⟨-(EINVAL : Int), g, 0, none, none⟩ ∧
    bbapi_rw fw g group offset inB si so =
      ⟨BIOSAPI_SRVNOTSUPP, 0, none, none⟩ ∧
    bbapi_read fw g group offset so = ⟨BIOSAPI_SRVNOTSUPP, 0, none, none⟩ ∧
    bbapi_write fw g group offset inB si =
      ⟨BIOSAPI_SRVNOTSUPP, 0, none, none⟩ := by
  unfold bbapi_read bbapi_write
  refine ⟨?_, ?_, ?_, ?_⟩ <;> simp [bbapi_ioctl, bbapi_rw, h]

/-- C3 witness: the amended statement at the uninitialized state. -/
theorem C3_witness :
    gUninit.entry = false ∧
    bbapi_ioctl fw0 gUninit BBAPI_CMD argOk =
      ⟨-(EINVAL : Int), gUninit, 0, none, none⟩ ∧
    bbapi_rw fw0 gUninit 0 0 (fun _ => 0) 0 0 =
      ⟨BIOSAPI_SRVNOTSUPP, 0, none, none⟩ :=
  ⟨rfl,
   (C3_uninitialized_fail_fast fw0 gUninit BBAPI_CMD argOk 0 0
     (fun _ => 0) 0 0 rfl).1,
   (C3_uninitialized_fail_fast fw0 gUninit BBAPI_CMD argOk 0 0
     (fun _ => 0) 0 0 rfl).2.1⟩

/-- C4 counterexample: a request whose input size 5000 exceeds the
4096-byte scratch capacity but whose offset 0xB5 is at or above the access
threshold is answered with -EACCES, not with the claimed -EINVAL: the
size check is not the one that rejects it. -/
theorem C4_counterexample :
    bbapi_ioctl fw0 gReady BBAPI_CMD argOversizeAcc =
      ⟨-(EACCES : Int), gReady, 0, none, none⟩ ∧
    -(EACCES : Int) ≠ -(EINVAL : Int) :=
  ⟨rfl, by decide⟩

/-- C4 amended: for every external request whose offset is below the
access threshold, if the declared input size exceeds the input scratch
capacity or the declared output size exceeds the output scratch capacity,
the gateway returns -EINVAL before any data movement: the state (hence
both scratch buffers) is returned unchanged, the firmware is not invoked,
and nothing is written back to the caller. -/
theorem C4_oversize_rejected (fw : FwEntry) (g : bbapi_object)
    (arg : bbapi_struct) (hinit : g.entry = true)
    (hoff : arg.nIndexOffset < 0xB0)
    (hsz : BBAPI_BUFFER_SIZE < arg.nInBufferSize ∨
      BBAPI_BUFFER_SIZE < arg.nOutBufferSize) :
    bbapi_ioctl fw g BBAPI_CMD arg = ⟨-(EINVAL : Int), g, 0, none, none⟩ := by
  rw [ioctl_run fw g arg hinit]
  unfold bbapi_ioctl_checked
  by_cases hm : arg.pMode = true
  · rw [if_pos hm]
  · rw [if_neg hm, if_neg (by omega)]
    unfold bbapi_ioctl_mutexed
    rcases hsz with h | h
    · rw [if_pos h]
    · by_cases h2 : BBAPI_BUFFER_SIZE < arg.nInBufferSize
      · rw [if_pos h2]
      · rw [if_neg h2, if_pos h]

/-- C4 witness: input size 5000 against capacity 4096. -/
theorem C4_witness :
    BBAPI_BUFFER_SIZE < argOversize.nInBufferSize ∧
    bbapi_ioctl fw0 gReady BBAPI_CMD argOversize =
      ⟨-(EINVAL : Int), gReady, 0, none, none⟩ :=
  ⟨by decide,
   C4_oversize_rejected fw0 gReady argOversize rfl (by decide)
     (Or.inl (by decide))⟩

/-- C5: when the firmware returns a nonzero 32-bit status s (with
s ||| BIOSAPIERR_OFFSET representable in a signed 32-bit value, which
holds for all defined firmware statuses), the external path returns the
negative value -(s ||| BIOSAPIERR_OFFSET) with the lifecycle state (the
published entry) unchanged, and the internal path's unsigned return value
reads back, as a signed 32-bit value, as the same negative value. -/
theorem C5_error_translation (fw : FwEntry) (g : bbapi_object)
    (arg : bbapi_struct) (group offset : Nat) (inB : Nat → Nat) (si so : Nat)
    (s wr : Nat) (out : Nat → Nat) (hinit : g.entry = true)
    (hfw : ∀ gr off i isz osz, fw gr off i isz osz = (s, wr, out))
    (hs : s ≠ 0) (hs31 : s ||| BIOSAPIERR_OFFSET ≤ 2 ^ 31)
    (hmode : arg.pMode = false) (hoff : arg.nIndexOffset < 0xB0)
    (hin : arg.nInBufferSize ≤ BBAPI_BUFFER_SIZE)
    (hout : arg.nOutBufferSize ≤ BBAPI_BUFFER_SIZE) :
    (bbapi_ioctl fw g BBAPI_CMD arg).result =
      -((s ||| BIOSAPIERR_OFFSET : Nat) : Int) ∧
    (bbapi_ioctl fw g BBAPI_CMD arg).state.entry = g.entry ∧
    toInt32 ((bbapi_rw fw g group offset inB si so).result) =
      -((s ||| BIOSAPIERR_OFFSET : Nat) : Int) := by
  have hpos : s ||| BIOSAPIERR_OFFSET ≠ 0 := or_offset_ne_zero s
  have hneg := toInt32_u32neg (s ||| BIOSAPIERR_OFFSET)
    (Nat.pos_of_ne_zero hpos) hs31
  have h := (ioctl_pass fw g arg hinit hmode hoff).trans
    (mutexed_error fw g arg s wr out hin hout hfw hs)
  rw [h, rw_error fw g group offset inB si so s wr out hinit
    (hfw group offset inB si so) hs]
  exact ⟨hneg, rfl, hneg⟩

/-- C5 witness: raw status 0x02 becomes -(0x02 ||| BIOSAPIERR_OFFSET) on
both paths. -/
theorem C5_witness :
    (2 : Nat) ≠ 0 ∧
    (bbapi_ioctl fwErr2 gReady BBAPI_CMD argOk).result =
      -((2 ||| BIOSAPIERR_OFFSET : Nat) : Int) ∧
    toInt32 ((bbapi_rw fwErr2 gReady 0 0 (fun _ => 0) 0 0).result) =
      -((2 ||| BIOSAPIERR_OFFSET : Nat) : Int) :=
  ⟨by decide,
   (C5_error_translation fwErr2 gReady argOk 0 0 (fun _ => 0) 0 0 2 0
     (fun _ => 0) rfl (fun _ _ _ _ _ => rfl) (by decide) (by decide) rfl
     (by decide) (by decide) (by decide)).1,
   (C5_error_translation fwErr2 gReady argOk 0 0 (fun _ => 0) 0 0 2 0
     (fun _ => 0) rfl (fun _ _ _ _ _ => rfl) (by decide) (by decide) rfl
     (by decide) (by decide) (by decide)).2.2⟩

/-- C6: from a matched signature position, the shadow copy reads the
32-bit little-endian length field 8 bytes past the signature start,
allocates exactly field + 4096 bytes, copies exactly that many bytes from
the window starting at the match, and places the entry at buffer base +
field; in particular field 0x2000 gives a 0x3000-byte allocation and copy
with entry offset 0x2000. -/
theorem C6_shadow_copy (w : List Nat) (pos : Nat) :
    (bbapi_copy_bios w pos).size = le32 w (pos + 8) + 4096 ∧
    (bbapi_copy_bios w pos).memory.length = le32 w (pos + 8) + 4096 ∧
    (bbapi_copy_bios w pos).entryOffset = le32 w (pos + 8) ∧
    (∀ i < le32 w (pos + 8) + 4096,
      (bbapi_copy_bios w pos).memory.getD i 0 = w.getD (pos + i) 0) ∧
    (le32 w (pos + 8) = 0x2000 →
      (bbapi_copy_bios w pos).size = 0x3000 ∧
      (bbapi_copy_bios w pos).memory.length = 0x3000 ∧
      (bbapi_copy_bios w pos).entryOffset = 0x2000) := by
  have hlen : (bbapi_copy_bios w pos).memory.length =
      le32 w (pos + 8) + 4096 := by
    simp [bbapi_copy_bios]
  refine ⟨rfl, hlen, rfl, ?_, ?_⟩
  · intro i hi
    simp only [bbapi_copy_bios]
    exact getD_range_map (le32 w (pos + 8) + 4096) i
      (fun j => w.getD (pos + j) 0) hi
  · intro h
    refine ⟨?_, ?_, ?_⟩
    · show le32 w (pos + 8) + 4096 = 0x3000
      omega
    · omega
    · exact h

/-- C6 witness: a window whose length field at byte 8 reads 0x2000. -/
theorem C6_witness :
    le32 wC6 8 = 0x2000 ∧
    (bbapi_copy_bios wC6 0).size = 0x3000 ∧
    (bbapi_copy_bios wC6 0).memory.length = 0x3000 ∧
    (bbapi_copy_bios wC6 0).entryOffset = 0x2000 :=
  ⟨by decide, (C6_shadow_copy wC6 0).2.2.2.2 (by decide)⟩

/-- C7: the scan iterates byte-phases 0..15 with 16-byte strides inside
each phase, comparing the 64-bit little-endian value at each candidate
against the compiled-in signature (this order is the scan_order
definition).  A window whose only signature occurrence sits at byte
offset 37 is found there and handed to the shadow copy; a window with no
signature at any readable position exhausts the scan and fails with
-EFAULT. -/
theorem C7_signature_scan (w : List Nat)
    (hlen : w.length ≤ BBIOSAPI_SIGNATURE_SEARCH_AREA) :
    (lword w 37 = BBIOSAPI_SIGNATURE → 37 + 16 ≤ w.length →
      (∀ p < w.length, p + 16 ≤ w.length →
        lword w p = BBIOSAPI_SIGNATURE → p = 37) →
      bbapi_scan w = some 37 ∧
      bbapi_find_bios w = (0, some (bbapi_copy_bios w 37))) ∧
    ((∀ p < w.length, p + 16 ≤ w.length →
        lword w p ≠ BBIOSAPI_SIGNATURE) →
      bbapi_find_bios w = (-(EFAULT : Int), none)) := by
  constructor
  · intro hsig hfit huniq
    have hscan : bbapi_scan w = some 37 := by
      unfold bbapi_scan
      apply find?_eq_some_of_unique
      · exact (mem_scan_order _ _).mpr hfit
      · simp [hsig]
      · intro b hb hpb
        have hb16 := (mem_scan_order _ _).mp hb
        exact huniq b (by omega) hb16 (by simpa using hpb)
    refine ⟨hscan, ?_⟩
    unfold bbapi_find_bios
    rw [if_neg (Nat.not_lt.mpr hlen), hscan]
  · intro hnone
    have hscan : bbapi_scan w = none := by
      unfold bbapi_scan
      rw [List.find?_eq_none]
      intro p hp
      have hp16 := (mem_scan_order _ _).mp hp
      simpa using hnone p (by omega) hp16
    unfold bbapi_find_bios
    rw [if_neg (Nat.not_lt.mpr hlen), hscan]

/-- C7 witness: a 64-byte window with the signature planted at byte
offset 37 (phase 5) is found there; the all-zero window fails with
-EFAULT. -/
theorem C7_witness :
    lword w37 37 = BBIOSAPI_SIGNATURE ∧
    (bbapi_scan w37 = some 37 ∧
      bbapi_find_bios w37 = (0, some (bbapi_copy_bios w37 37))) ∧
    bbapi_find_bios wNone = (-(EFAULT : Int), none) :=
  ⟨by decide,
   (C7_signature_scan w37 (by decide)).1 (by decide) (by decide) (by decide),
   (C7_signature_scan wNone (by decide)).2 (by decide)⟩

/-- C8: the capability probe (a zero-length internal read) reports a
feature supported exactly when the raw firmware status, carried into the
driver's error space by combining it with BIOSAPIERR_OFFSET, equals the
invalid-size or the invalid-parameter constant; every other status gives
supported = false. -/
theorem C8_capability_probe (fw : FwEntry) (g : bbapi_object)
    (group offset s wr : Nat) (out : Nat → Nat)
    (hinit : g.entry = true)
    (hfw : fw group offset (fun _ => 0) 0 0 = (s, wr, out))
    (hs : s < 2 ^ 32) :
    bbapi_supports fw g group offset =
      ((s ||| BIOSAPIERR_OFFSET == BIOSAPI_INVALIDSIZE) ||
       (s ||| BIOSAPIERR_OFFSET == BIOSAPI_INVALIDPARM)) := by
  simp only [bbapi_supports, bbapi_read]
  rw [rw_result_status fw g group offset (fun _ => 0) 0 0 s wr out hinit hfw]
  by_cases h : s = 0
  · subst h
    simp only [if_pos rfl]
    decide
  · rw [if_neg h, u32neg_u32neg _ (Nat.or_lt_two_pow hs (by decide))]

/-- C8 witness: raw status 0x02 (invalid size) makes the probe report
supported = true. -/
theorem C8_witness :
    (2 : Nat) < 2 ^ 32 ∧ bbapi_supports fwErr2 gReady 0 0 = true :=
  ⟨by decide,
   (C8_capability_probe fwErr2 gReady 0 0 2 0 (fun _ => 0) rfl rfl
     (by decide)).trans (by decide)⟩

/-- C9: on the external path, a nonzero firmware status means nothing is
copied back to the caller's output buffer and nothing is stored through
pBytesReturned; the only caller-visible effect is the translated nonzero
result. -/
theorem C9_error_no_writeback (fw : FwEntry) (g : bbapi_object)
    (arg : bbapi_struct) (s wr : Nat) (out : Nat → Nat)
    (hinit : g.entry = true) (hmode : arg.pMode = false)
    (hoff : arg.nIndexOffset < 0xB0)
    (hin : arg.nInBufferSize ≤ BBAPI_BUFFER_SIZE)
    (hout : arg.nOutBufferSize ≤ BBAPI_BUFFER_SIZE)
    (hfw : ∀ gr off i isz osz, fw gr off i isz osz = (s, wr, out))
    (hs : s ≠ 0) (hs32 : s < 2 ^ 32) :
    (bbapi_ioctl fw g BBAPI_CMD arg).userOut = none ∧
    (bbapi_ioctl fw g BBAPI_CMD arg).userBytesReturned = none ∧
    (bbapi_ioctl fw g BBAPI_CMD arg).result =
      toInt32 (u32neg (s ||| BIOSAPIERR_OFFSET)) ∧
    (bbapi_ioctl fw g BBAPI_CMD arg).result ≠ 0 := by
  have h := (ioctl_pass fw g arg hinit hmode hoff).trans
    (mutexed_error fw g arg s wr out hin hout hfw hs)
  rw [h]
  exact ⟨rfl, rfl, rfl,
    toInt32_u32neg_ne_zero _ (or_offset_ne_zero s)
      (Nat.or_lt_two_pow hs32 (by decide))⟩

/-- C9 witness: a failing request with a non-null bytes-returned pointer
still gets nothing written back. -/
theorem C9_witness :
    argOkBR.pBytesReturned = true ∧
    (bbapi_ioctl fwErr2 gReady BBAPI_CMD argOkBR).userOut = none ∧
    (bbapi_ioctl fwErr2 gReady BBAPI_CMD argOkBR).userBytesReturned = none :=
  ⟨rfl,
   (C9_error_no_writeback fwErr2 gReady argOkBR 2 0 (fun _ => 0) rfl rfl
     (by decide) (by decide) (by decide) (fun _ _ _ _ _ => rfl) (by decide)
     (by decide)).1,
   (C9_error_no_writeback fwErr2 gReady argOkBR 2 0 (fun _ => 0) rfl rfl
     (by decide) (by decide) (by decide) (fun _ _ _ _ _ => rfl) (by decide)
     (by decide)).2.1⟩

/-- C10: on a successful external request the bytes copied back to the
caller are exactly the firmware-reported count of bytes from the output
scratch buffer — the count is not clamped to the declared output size or
to the scratch capacity (the theorem has no hypothesis relating the
firmware count to either) — and the same count is stored through
pBytesReturned exactly when that pointer is non-null. -/
theorem C10_copyback_exact (fw : FwEntry) (g : bbapi_object)
    (arg : bbapi_struct) (wr : Nat) (out : Nat → Nat)
    (hinit : g.entry = true) (hmode : arg.pMode = false)
    (hoff : arg.nIndexOffset < 0xB0)
    (hin : arg.nInBufferSize ≤ BBAPI_BUFFER_SIZE)
    (hout : arg.nOutBufferSize ≤ BBAPI_BUFFER_SIZE)
    (hfw : ∀ gr off i isz osz, fw gr off i isz osz = (0, wr, out)) :
    (bbapi_ioctl fw g BBAPI_CMD arg).userOut =
      some ((List.range wr).map out) ∧
    (∀ l, (bbapi_ioctl fw g BBAPI_CMD arg).userOut = some l →
      l.length = wr) ∧
    (bbapi_ioctl fw g BBAPI_CMD arg).userBytesReturned =
      (if arg.pBytesReturned then some wr else none) := by
  have h := (ioctl_pass fw g arg hinit hmode hoff).trans
    (mutexed_success fw g arg wr out hin hout hfw)
  rw [h]
  refine ⟨rfl, ?_, rfl⟩
  intro l hl
  cases hl
  simp

/-- C10 witness: the firmware reports 9999 bytes written against a
declared output size of 16 and a scratch capacity of 4096; exactly 9999
bytes are copied back and 9999 is stored through pBytesReturned. -/
theorem C10_witness :
    argOkBR.nOutBufferSize = 16 ∧ argOkBR.pBytesReturned = true ∧
    (bbapi_ioctl fwBig gReady BBAPI_CMD argOkBR).userOut =
      some ((List.range 9999).map (fun _ => 7)) ∧
    (∀ l, (bbapi_ioctl fwBig gReady BBAPI_CMD argOkBR).userOut = some l →
      l.length = 9999) ∧
    (bbapi_ioctl fwBig gReady BBAPI_CMD argOkBR).userBytesReturned =
      some 9999 :=
  ⟨rfl, rfl,
   (C10_copyback_exact fwBig gReady argOkBR 9999 (fun _ => 7) rfl rfl
     (by decide) (by decide) (by decide) (fun _ _ _ _ _ => rfl)).1,
   (C10_copyback_exact fwBig gReady argOkBR 9999 (fun _ => 7) rfl rfl
     (by decide) (by decide) (by decide) (fun _ _ _ _ _ => rfl)).2.1,
   (C10_copyback_exact fwBig gReady argOkBR 9999 (fun _ => 7) rfl rfl
     (by decide) (by decide) (by decide) (fun _ _ _ _ _ => rfl)).2.2⟩

end BBAPI
